import Mathlib

/-!
Verification development for the ETL core of `etl_project`
(`etl/load.py`, `etl/validate.py`).

The Python sources are shallowly embedded: pure functions become Lean
functions, the database store becomes an explicit `Store` value threaded
through the loader, exceptions become `Except`, and the SQLAlchemy type
class hierarchy that `are_schemas_compatible` probes via `issubclass` is
embedded as a finite enumeration with its superclass chains.
-/

set_option maxHeartbeats 1000000

namespace ETL

/-- SQLAlchemy type classes relevant to the schemas this ETL core builds
(`PYTHON_TO_SQLALCHEMY_TYPE_MAP` in `load.py` produces `Float`, `String`,
`DateTime`, `Integer`, `Boolean`) and the concrete dialect classes the
catalog can report.  Mirrors `sqlalchemy.types`. -/
inductive SqlClass where
  | TypeEngine
  | String | Text | Unicode | UnicodeText | VARCHAR | CHAR | NVARCHAR | NCHAR | TEXT | CLOB
  | Numeric | Float | Double | NUMERIC | DECIMAL | FLOAT | REAL | DOUBLE | DOUBLE_PRECISION
  | Integer | SmallInteger | BigInteger | INTEGER | SMALLINT | BIGINT
  | DateTime | TIMESTAMP | DATETIME
  | Date | DATE
  | Time | TIME
  | Boolean | BOOLEAN
  deriving DecidableEq, BEq, Repr, Fintype

/-- The superclass chain of each SQLAlchemy type class (the class itself
included), as in `sqlalchemy/sql/sqltypes.py`: `String`, `Numeric`,
`Integer`, `DateTime`, `Date`, `Time` and `Boolean` are all direct
`TypeEngine` subclasses — in particular the integer classes are NOT
subclasses of `Numeric` ("base for non-integer numeric types"), and
`Date`/`Time` are NOT subclasses of `DateTime`. -/
def sqlSuperclasses : SqlClass → List SqlClass
  | .TypeEngine => [.TypeEngine]
  | .String => [.String, .TypeEngine]
  | .Text => [.Text, .String, .TypeEngine]
  | .Unicode => [.Unicode, .String, .TypeEngine]
  | .UnicodeText => [.UnicodeText, .Text, .String, .TypeEngine]
  | .VARCHAR => [.VARCHAR, .String, .TypeEngine]
  | .CHAR => [.CHAR, .String, .TypeEngine]
  | .NVARCHAR => [.NVARCHAR, .Unicode, .String, .TypeEngine]
  | .NCHAR => [.NCHAR, .Unicode, .String, .TypeEngine]
  | .TEXT => [.TEXT, .Text, .String, .TypeEngine]
  | .CLOB => [.CLOB, .Text, .String, .TypeEngine]
  | .Numeric => [.Numeric, .TypeEngine]
  | .Float => [.Float, .Numeric, .TypeEngine]
  | .Double => [.Double, .Float, .Numeric, .TypeEngine]
  | .NUMERIC => [.NUMERIC, .Numeric, .TypeEngine]
  | .DECIMAL => [.DECIMAL, .Numeric, .TypeEngine]
  | .FLOAT => [.FLOAT, .Float, .Numeric, .TypeEngine]
  | .REAL => [.REAL, .Float, .Numeric, .TypeEngine]
  | .DOUBLE => [.DOUBLE, .Double, .Float, .Numeric, .TypeEngine]
  | .DOUBLE_PRECISION => [.DOUBLE_PRECISION, .Double, .Float, .Numeric, .TypeEngine]
  | .Integer => [.Integer, .TypeEngine]
  | .SmallInteger => [.SmallInteger, .Integer, .TypeEngine]
  | .BigInteger => [.BigInteger, .Integer, .TypeEngine]
  | .INTEGER => [.INTEGER, .Integer, .TypeEngine]
  | .SMALLINT => [.SMALLINT, .SmallInteger, .Integer, .TypeEngine]
  | .BIGINT => [.BIGINT, .BigInteger, .Integer, .TypeEngine]
  | .DateTime => [.DateTime, .TypeEngine]
  | .TIMESTAMP => [.TIMESTAMP, .DateTime, .TypeEngine]
  | .DATETIME => [.DATETIME, .DateTime, .TypeEngine]
  | .Date => [.Date, .TypeEngine]
  | .DATE => [.DATE, .Date, .TypeEngine]
  | .Time => [.Time, .TypeEngine]
  | .TIME => [.TIME, .Time, .TypeEngine]
  | .Boolean => [.Boolean, .TypeEngine]
  | .BOOLEAN => [.BOOLEAN, .Boolean, .TypeEngine]

/-- `issubclass a b` for the embedded SQLAlchemy classes. -/
def isSubclass (a b : SqlClass) : Bool :=
  (sqlSuperclasses a).contains b

/-- A schema as `load.py` represents it: an insertion-ordered dict
`{column_name: SQLAlchemyTypeClass}`, embedded as an association list
whose key list carries the column order. -/
abbrev SchemaMap := List (String × SqlClass)

/-- The per-column body of the loop in `are_schemas_compatible`
(`load.py` lines 63-88): direct type class equality, else compatible when
both sides are `issubclass` of the same one of `String`, `Numeric`,
`DateTime`, `Boolean`. -/
def typesCompatible (dbType curType : SqlClass) : Bool :=
  dbType == curType
    || (isSubclass dbType .String && isSubclass curType .String)
    || (isSubclass dbType .Numeric && isSubclass curType .Numeric)
    || (isSubclass dbType .DateTime && isSubclass curType .DateTime)
    || (isSubclass dbType .Boolean && isSubclass curType .Boolean)

/-- `are_schemas_compatible` (`load.py` lines 44-91): the key sequences
must be equal (names and order), then every column of the current schema
must pass `typesCompatible` against the db schema entry of the same name
(`db_schema_map.get(col_name)`, `None` impossible after the key check but
handled as incompatible, as in the source). -/
def are_schemas_compatible (db_schema_map current_schema_map : SchemaMap) : Bool :=
  if db_schema_map.map Prod.fst ≠ current_schema_map.map Prod.fst then
    false
  else
    current_schema_map.all fun p =>
      match db_schema_map.lookup p.1 with
      | none => false
      | some dbType => typesCompatible dbType p.2

/-- The four broad categories named by the compatibility check. -/
inductive BroadCat where
  | textual | numericCat | temporal | booleanCat
  deriving DecidableEq, Repr, Fintype

/-- The broad category a type class actually falls into in the code:
determined by the `issubclass` probes of `are_schemas_compatible`.
Integer classes and `Date`/`Time` classes fall into no category. -/
def codeBroadCategory (t : SqlClass) : Option BroadCat :=
  if isSubclass t .String then some .textual
  else if isSubclass t .Numeric then some .numericCat
  else if isSubclass t .DateTime then some .temporal
  else if isSubclass t .Boolean then some .booleanCat
  else none

/-- Modelled from the spec: the broad category the specification ascribes
to each physical type — numeric "covers all integer/float/decimal kinds",
temporal covers "date/time/timestamp kinds". -/
def specBroadCategory (t : SqlClass) : Option BroadCat :=
  if isSubclass t .String then some .textual
  else if isSubclass t .Numeric || isSubclass t .Integer then some .numericCat
  else if isSubclass t .DateTime || isSubclass t .Date || isSubclass t .Time then
    some .temporal
  else if isSubclass t .Boolean then some .booleanCat
  else none

theorem typesCompatible_iff (a b : SqlClass) :
    typesCompatible a b = true ↔
      a = b ∨ ∃ c, codeBroadCategory a = some c ∧ codeBroadCategory b = some c := by
  revert a b; decide

theorem typesCompatible_symm (a b : SqlClass) :
    typesCompatible a b = typesCompatible b a := by
  revert a b; decide

theorem schemaLookup_cons_self (k : String) (v : SqlClass) (l : SchemaMap) :
    List.lookup k ((k, v) :: l) = some v := by
  simp [List.lookup]

theorem schemaLookup_cons_ne (k a : String) (v : SqlClass) (l : SchemaMap)
    (h : a ≠ k) : List.lookup a ((k, v) :: l) = List.lookup a l := by
  have hk : (a == k) = false := beq_eq_false_iff_ne.mpr h
  simp [List.lookup, hk]

theorem all_congr_mem {α : Type} {l : List α} {f g : α → Bool}
    (h : ∀ x ∈ l, f x = g x) : l.all f = l.all g := by
  induction l with
  | nil => rfl
  | cons x xs ih =>
    simp only [List.all_cons]
    rw [h x (by simp), ih fun y hy => h y (by simp [hy])]

/-- With equal, duplicate-free column-name sequences, `are_schemas_compatible`
is the conjunction of `typesCompatible` over the positionally aligned
column pairs. -/
theorem are_schemas_compatible_eq_zip (P Q : SchemaMap)
    (hn : P.map Prod.fst = Q.map Prod.fst) (hd : (P.map Prod.fst).Nodup) :
    are_schemas_compatible P Q
      = (P.zip Q).all fun pq => typesCompatible pq.1.2 pq.2.2 := by
  induction P generalizing Q with
  | nil =>
    have hQ : Q = [] := by
      cases Q with
      | nil => rfl
      | cons q qs => simp at hn
    subst hQ
    simp [are_schemas_compatible]
  | cons p P ih =>
    cases Q with
    | nil => simp at hn
    | cons q Q =>
      obtain ⟨pn, pt⟩ := p
      obtain ⟨qn, qt⟩ := q
      simp only [List.map_cons, List.cons.injEq] at hn
      obtain ⟨hname, htail⟩ := hn
      subst hname
      simp only [List.map_cons, List.nodup_cons] at hd
      obtain ⟨hnotin, hdtail⟩ := hd
      have hguard : ((pn, pt) :: P).map Prod.fst = ((pn, qt) :: Q).map Prod.fst := by
        simp [htail]
      have htailcomp :
          Q.all (fun r => match List.lookup r.1 ((pn, pt) :: P) with
            | none => false
            | some dbType => typesCompatible dbType r.2)
          = Q.all (fun r => match List.lookup r.1 P with
            | none => false
            | some dbType => typesCompatible dbType r.2) := by
        refine all_congr_mem fun r hr => ?_
        have hrQ : r.1 ∈ Q.map Prod.fst := List.mem_map_of_mem Prod.fst hr
        rw [← htail] at hrQ
        have hne : r.1 ≠ pn := fun he => hnotin (he ▸ hrQ)
        rw [schemaLookup_cons_ne pn r.1 pt P hne]
      have hP : are_schemas_compatible P Q
          = Q.all (fun r => match List.lookup r.1 P with
            | none => false
            | some dbType => typesCompatible dbType r.2) := by
        simp [are_schemas_compatible, htail]
      rw [are_schemas_compatible, if_neg (by simp [hguard])]
      simp only [List.all_cons, schemaLookup_cons_self, htailcomp, ← hP,
        ih Q htail hdtail, List.zip_cons_cons, List.all_cons]

/-- C7: any difference in the column-name sequences (extra, missing,
reordered, or renamed column) makes `are_schemas_compatible` return
incompatible, whatever the types are. -/
theorem are_schemas_compatible_false_of_name_mismatch (P Q : SchemaMap)
    (h : P.map Prod.fst ≠ Q.map Prod.fst) :
    are_schemas_compatible P Q = false := by
  simp [are_schemas_compatible, h]

/-- C7 witness: the spec's reordering example — same names and types in a
different order compare incompatible. -/
theorem are_schemas_compatible_false_of_name_mismatch_witness :
    are_schemas_compatible
      [("id", SqlClass.Integer), ("name", SqlClass.String)]
      [("name", SqlClass.String), ("id", SqlClass.Integer)] = false :=
  are_schemas_compatible_false_of_name_mismatch _ _ (by decide)

/-- C10: schema compatibility is symmetric — the name/order check and
every per-column check treat the two sides identically (schemas are
Python dicts, so their key sequences are duplicate-free). -/
theorem are_schemas_compatible_symm (P Q : SchemaMap)
    (hP : (P.map Prod.fst).Nodup) (hQ : (Q.map Prod.fst).Nodup) :
    are_schemas_compatible P Q = are_schemas_compatible Q P := by
  by_cases hn : P.map Prod.fst = Q.map Prod.fst
  · rw [are_schemas_compatible_eq_zip P Q hn hP,
      are_schemas_compatible_eq_zip Q P hn.symm hQ, ← List.zip_swap]
    rw [List.all_map]
    refine all_congr_mem fun pq _ => ?_
    simp [Function.comp, Prod.swap, typesCompatible_symm]
  · rw [are_schemas_compatible_false_of_name_mismatch P Q hn,
      are_schemas_compatible_false_of_name_mismatch Q P (fun he => hn he.symm)]

/-- C10 witness: symmetry evaluated at a concrete incompatible pair. -/
theorem are_schemas_compatible_symm_witness :
    are_schemas_compatible
        [("a", SqlClass.INTEGER)] [("a", SqlClass.BIGINT)]
      = are_schemas_compatible
        [("a", SqlClass.BIGINT)] [("a", SqlClass.INTEGER)] :=
  are_schemas_compatible_symm _ _ (by decide) (by decide)

/-- C1 counterexample: a 32-bit vs a 64-bit integer column (`INTEGER` vs
`BIGINT`) and a date vs a timestamp column (`DATE` vs `TIMESTAMP`) fall in
the same broad category of the claim (numeric resp. temporal), yet
`are_schemas_compatible` reports them incompatible, because in SQLAlchemy
the integer classes are not subclasses of `Numeric` and `Date` is not a
subclass of `DateTime`. -/
theorem are_schemas_compatible_category_counterexample :
    specBroadCategory SqlClass.INTEGER = some BroadCat.numericCat
    ∧ specBroadCategory SqlClass.BIGINT = some BroadCat.numericCat
    ∧ are_schemas_compatible [("c", SqlClass.INTEGER)] [("c", SqlClass.BIGINT)] = false
    ∧ specBroadCategory SqlClass.DATE = some BroadCat.temporal
    ∧ specBroadCategory SqlClass.TIMESTAMP = some BroadCat.temporal
    ∧ are_schemas_compatible [("c", SqlClass.DATE)] [("c", SqlClass.TIMESTAMP)] = false := by
  decide

/-- C1 (amended): for schemas with identical (duplicate-free) column-name
sequences, the comparison is compatible exactly when every aligned column
pair has equal type classes or both classes fall in the same broad
category, where the categories are the `issubclass` families of `String`
(textual), `Numeric` (float/decimal kinds — integer classes form no
category), `DateTime` (datetime/timestamp kinds — `Date` and `Time` form
no category), and `Boolean`. -/
theorem are_schemas_compatible_iff_categories (P Q : SchemaMap)
    (hn : P.map Prod.fst = Q.map Prod.fst) (hd : (P.map Prod.fst).Nodup) :
    are_schemas_compatible P Q = true ↔
      ∀ pq ∈ P.zip Q, pq.1.2 = pq.2.2
        ∨ ∃ c, codeBroadCategory pq.1.2 = some c ∧ codeBroadCategory pq.2.2 = some c := by
  rw [are_schemas_compatible_eq_zip P Q hn hd, List.all_eq_true]
  constructor
  · intro h pq hpq
    exact (typesCompatible_iff pq.1.2 pq.2.2).1 (h pq hpq)
  · intro h pq hpq
    exact (typesCompatible_iff pq.1.2 pq.2.2).2 (h pq hpq)

/-- C1 witness: a bounded character type vs an unbounded text type
(`VARCHAR` vs `TEXT`) is compatible — both are textual. -/
theorem are_schemas_compatible_iff_categories_witness :
    are_schemas_compatible [("name", SqlClass.VARCHAR)] [("name", SqlClass.TEXT)] = true := by
  refine (are_schemas_compatible_iff_categories
      [("name", SqlClass.VARCHAR)] [("name", SqlClass.TEXT)] (by decide) (by decide)).2 ?_
  intro pq hpq
  simp only [List.zip_cons_cons, List.zip_nil_left, List.mem_singleton] at hpq
  subst hpq
  exact Or.inr ⟨BroadCat.textual, by decide, by decide⟩

/-- A raw cell value of a batch column. `vNull` models both a pandas
`NaN` and a Python `None` (the validator normalizes `NaN` to `None`
before checking, so one null marker is faithful). -/
inductive Value where
  | vStr (s : String)
  | vNum (q : ℚ)
  | vBool (b : Bool)
  | vTime (t : Nat)
  | vNull
  deriving DecidableEq, Repr

/-- A DataFrame: an ordered sequence of named columns of cells. -/
abbrev Batch := List (String × List Value)

/-- The Python types used as semantic tags in a `type_map`
(`float`, `str`, `pd.Timestamp`, `int`, `bool`). -/
inductive PyType where
  | pfloat | pstr | ptimestamp | pint | pbool
  deriving DecidableEq, Repr

abbrev TypeMap := List (String × PyType)

/-- Row count of a batch: the length of its first column (a DataFrame
keeps all columns the same length). -/
def numRows : Batch → Nat
  | [] => 0
  | c :: _ => c.2.length

def digitVal (ch : Char) : Nat := ch.toNat - 48

def parseDigits (cs : List Char) : Option Nat :=
  if cs.isEmpty then none
  else if cs.all Char.isDigit then
    some (cs.foldl (fun a ch => a * 10 + digitVal ch) 0)
  else none

/-- Split a character list at its first dot. -/
def splitOnDot : List Char → List Char × Option (List Char)
  | [] => ([], none)
  | ch :: cs =>
    if ch = '.' then ([], some cs)
    else
      let r := splitOnDot cs
      (ch :: r.1, r.2)

/-- Model of the numeric-string grammar accepted by `pd.to_numeric`: an
optional sign, a nonempty integer part, an optional fractional part. -/
def parseDecimal (s : String) : Option ℚ :=
  let core : List Char → Option ℚ := fun cs =>
    match splitOnDot cs with
    | (ip, none) => (parseDigits ip).map (fun n => (n : ℚ))
    | (ip, some fp) =>
      match parseDigits ip with
      | none => none
      | some n =>
        if fp.isEmpty then some (n : ℚ)
        else (parseDigits fp).map fun f => (n : ℚ) + (f : ℚ) / (10 : ℚ) ^ fp.length
  match s.data with
  | '-' :: rest => (core rest).map (fun q => -q)
  | '+' :: rest => core rest
  | cs => core cs

/-- `pd.to_numeric(cell, errors="coerce")`: numbers pass through,
booleans become 1/0, numeric strings parse, everything else — including
null — yields no number. -/
def pdToNumeric : Value → Option ℚ
  | .vNum q => some q
  | .vBool b => some (if b then 1 else 0)
  | .vStr s => parseDecimal s
  | .vTime t => some (t : ℚ)
  | .vNull => none

/-- The float cast of `validate.py` line 17: parse-or-null per cell. -/
def castFloatCell (v : Value) : Value :=
  match pdToNumeric v with
  | some q => .vNum q
  | none => .vNull

/-- Minimal model of `pd.to_datetime` string parsing: strict ISO
`YYYY-MM-DD`, encoded as the number `yyyymmdd`. No claim depends on the
exact accepted grammar. -/
def parseDate (s : String) : Option Nat :=
  match s.data with
  | [y1, y2, y3, y4, '-', m1, m2, '-', d1, d2] =>
    if ([y1, y2, y3, y4, m1, m2, d1, d2]).all Char.isDigit then
      some (([y1, y2, y3, y4, m1, m2, d1, d2]).foldl (fun a ch => a * 10 + digitVal ch) 0)
    else none
  | _ => none

/-- `pd.to_datetime(cell, errors="coerce")` on one cell. -/
def pdToDatetime : Value → Option Nat
  | .vTime t => some t
  | .vStr s => parseDate s
  | .vNum q => if q.den = 1 ∧ 0 ≤ q.num then some q.num.toNat else none
  | .vBool _ => none
  | .vNull => none

/-- The timestamp cast of `validate.py` line 22: parse-or-null per cell. -/
def castTimestampCell (v : Value) : Value :=
  match pdToDatetime v with
  | some t => .vTime t
  | none => .vNull

/-- `astype(str)` on one cell; a pandas `NaN` stringifies to `"nan"`.
The exact rendering of numbers is abstracted; no claim depends on it. -/
def stringifyCell : Value → Value
  | .vStr s => .vStr s
  | .vNum q => .vStr (toString q)
  | .vBool b => .vStr (if b then "True" else "False")
  | .vTime t => .vStr (toString t)
  | .vNull => .vStr "nan"

/-- The per-column cast dispatch of `auto_cast_and_validate`
(`validate.py` lines 14-25): `float` → `pd.to_numeric(errors="coerce")`,
`str` → `astype(str)`, `pd.Timestamp` → `pd.to_datetime(errors="coerce")`.
There is no branch for `int` or `bool` ("Add other type conversions as
needed"), so those columns are left exactly as they were. -/
def castColumn : PyType → List Value → List Value
  | .pfloat, vals => vals.map castFloatCell
  | .pstr, vals => vals.map stringifyCell
  | .ptimestamp, vals => vals.map castTimestampCell
  | .pint, vals => vals
  | .pbool, vals => vals

/-- A column-level cast error entry, as built in `validate.py`. -/
structure CastErr where
  column : String
  errorType : String
  message : String
  deriving DecidableEq, Repr

/-- The `MissingColumn` entries collected by the casting loop for
type-map columns absent from the frame (`validate.py` lines 11-12). -/
def autoCastErrors (df : Batch) (tm : TypeMap) : List CastErr :=
  tm.filterMap fun p =>
    if (df.lookup p.1).isNone then
      some ⟨p.1, "MissingColumn", "Column " ++ p.1 ++ " not found in DataFrame."⟩
    else none

/-- The casting loop of `auto_cast_and_validate`: every column of the
frame that the type map covers is cast by `castColumn`; columns absent
from the type map pass through unchanged. -/
def autoCastBatch (df : Batch) (tm : TypeMap) : Batch :=
  df.map fun col =>
    match tm.lookup col.1 with
    | some ty => (col.1, castColumn ty col.2)
    | none => col

/-- One field-level validation failure, keyed by field name. -/
structure FieldErr where
  field : String
  msg : String
  deriving DecidableEq, Repr

/-- One row-level validation entry: the row index with all its
field-level failures. -/
structure RowErr where
  index : Nat
  errors : List FieldErr
  deriving DecidableEq, Repr

/-- The outcome of the body of the per-row `try`: a Pydantic
`ValidationError`, or any other exception. -/
inductive RowExc where
  | validation (errs : List FieldErr)
  | runtime (msg : String)
  deriving DecidableEq, Repr

abbrev RowDict := List (String × Value)

/-- The dynamically built Pydantic model fields (`validate.py` lines
30-38): the type-map entries whose column exists in the casted frame, in
type-map order, then every remaining frame column defaulted to `str`. -/
def pydanticFields (df : Batch) (tm : TypeMap) : List (String × PyType) :=
  let fromMap := tm.filter fun p => (df.lookup p.1).isSome
  fromMap ++ (df.map Prod.fst).filterMap fun c =>
    if (fromMap.lookup c).isSome then none else some (c, PyType.pstr)

/-- Pydantic v2 lax validation of one value against a field type; a null
(`None`) is rejected by every one of these non-optional field types. -/
def validateField : PyType → Value → Bool
  | .pfloat, .vNum _ => true
  | .pfloat, .vStr s => (parseDecimal s).isSome
  | .pfloat, _ => false
  | .pstr, .vStr _ => true
  | .pstr, _ => false
  | .ptimestamp, .vTime _ => true
  | .ptimestamp, .vStr s => (parseDate s).isSome
  | .ptimestamp, _ => false
  | .pint, .vNum q => q.den == 1
  | .pint, .vStr s => (parseDecimal s).elim false fun q => q.den == 1
  | .pint, _ => false
  | .pbool, .vBool _ => true
  | .pbool, .vNum q => q == 0 || q == 1
  | .pbool, .vStr s => (["true", "false", "yes", "no", "on", "off", "0", "1"]).contains s
  | .pbool, _ => false

def fieldTypeMsg : PyType → String
  | .pfloat => "Input should be a valid number"
  | .pstr => "Input should be a valid string"
  | .ptimestamp => "Input should be a valid datetime"
  | .pint => "Input should be a valid integer"
  | .pbool => "Input should be a valid boolean"

/-- One `DataModel(**filtered_row_dict)` call (`validate.py` line 64):
every declared field present in the row dict is validated (a field
absent from the dict takes its default unvalidated); any failure raises
a `ValidationError` carrying all the field failures of the row. -/
def checkRowExc (fields : List (String × PyType)) (row : RowDict) : Except RowExc Unit :=
  let errs := fields.filterMap fun p =>
    match row.lookup p.1 with
    | none => none
    | some v =>
      if validateField p.2 v then none
      else some (⟨p.1, fieldTypeMsg p.2⟩ : FieldErr)
  if errs.isEmpty then .ok () else .error (.validation errs)

/-- The generic diagnostic built by the `except Exception` arm of the row
loop (`validate.py` line 69). -/
def genericFieldErr (m : String) : FieldErr := ⟨"unknown", m⟩

/-- The row loop of `auto_cast_and_validate` (`validate.py` lines
55-69), with the body of the `try` abstracted as `f`: a valid row is
collected, a `ValidationError` becomes a row-error entry, any other
exception becomes a row-error entry with a generic diagnostic, and the
loop continues over the remaining rows either way. -/
def validateLoop (f : Nat → RowDict → Except RowExc Unit) :
    Nat → List RowDict → List RowDict × List RowErr
  | _, [] => ([], [])
  | i, r :: rs =>
    let rest := validateLoop f (i + 1) rs
    match f i r with
    | .ok _ => (r :: rest.1, rest.2)
    | .error (.validation es) => (rest.1, ⟨i, es⟩ :: rest.2)
    | .error (.runtime m) => (rest.1, ⟨i, [genericFieldErr m]⟩ :: rest.2)

/-- Row `i` of the frame, as the dict `iterrows` yields it after
`row.where(pd.notnull(row), None)`: nulls stay the explicit null. -/
def rowDict (df : Batch) (i : Nat) : RowDict :=
  df.map fun col => (col.1, col.2.getD i .vNull)

/-- `auto_cast_and_validate` (`validate.py`): cast every mapped column,
collect missing-column errors, build the dynamic model fields, and —
unless there are no fields at all — validate every row, returning the
full casted frame, the cast errors and the row validation errors. -/
def auto_cast_and_validate (df : Batch) (tm : TypeMap) :
    Batch × List CastErr × List RowErr :=
  let casted := autoCastBatch df tm
  let errors := autoCastErrors df tm
  let fields := pydanticFields casted tm
  if fields.isEmpty then (casted, errors, [])
  else
    let rows := (List.range (numRows casted)).map (rowDict casted)
    (casted, errors, (validateLoop (fun _ => checkRowExc fields) 0 rows).2)

theorem castColumn_length (ty : PyType) (vals : List Value) :
    (castColumn ty vals).length = vals.length := by
  cases ty <;> simp [castColumn]

/-- C5: the batch returned by `auto_cast_and_validate` is exactly the
casted batch — validation never removes a row, the diagnostics are
returned alongside — and casting preserves every column's name and
length, so the returned batch has precisely the rows of the input. -/
theorem auto_cast_and_validate_keeps_all_rows (df : Batch) (tm : TypeMap) :
    (auto_cast_and_validate df tm).1 = autoCastBatch df tm
    ∧ (autoCastBatch df tm).map (fun col => (col.1, col.2.length))
        = df.map fun col => (col.1, col.2.length) := by
  constructor
  · by_cases h : (pydanticFields (autoCastBatch df tm) tm).isEmpty <;>
      simp [auto_cast_and_validate, h]
  · rw [autoCastBatch, List.map_map]
    refine List.map_congr_left fun col _ => ?_
    cases htm : tm.lookup col.1 <;> simp [htm, castColumn_length]

theorem validateLoop_accounting (f : Nat → RowDict → Except RowExc Unit)
    (i : Nat) (rs : List RowDict) :
    (validateLoop f i rs).1.length + (validateLoop f i rs).2.length = rs.length
    ∧ ∀ j (h : j < rs.length) (m : String),
        f (i + j) (rs.get ⟨j, h⟩) = .error (.runtime m) →
          RowErr.mk (i + j) [genericFieldErr m] ∈ (validateLoop f i rs).2 := by
  induction rs generalizing i with
  | nil => exact ⟨rfl, fun j h => absurd h (by simp)⟩
  | cons r rs ih =>
    obtain ⟨ihlen, ihmem⟩ := ih (i + 1)
    constructor
    · cases hf : f i r with
      | ok u => simp only [validateLoop, hf, List.length_cons]; omega
      | error exc =>
        cases exc <;> simp only [validateLoop, hf, List.length_cons] <;> omega
    · intro j h m hm
      cases j with
      | zero =>
        have hget : (r :: rs).get ⟨0, h⟩ = r := rfl
        rw [Nat.add_zero, hget] at hm
        simp only [validateLoop, hm, Nat.add_zero]
        exact List.mem_cons_self _ _
      | succ j =>
        have hj : j < rs.length := by simpa using h
        have harith : i + (j + 1) = (i + 1) + j := by omega
        have hget : (r :: rs).get ⟨j + 1, h⟩ = rs.get ⟨j, hj⟩ := rfl
        rw [harith, hget] at hm
        have hmem := ihmem j hj m hm
        rw [harith]
        cases hf : f i r with
        | ok u => simpa [validateLoop, hf] using hmem
        | error exc =>
          cases exc <;> simp [validateLoop, hf] <;> exact Or.inr hmem

/-- C6: no outcome of checking one row escapes the row loop: every row of
the batch is dispositioned (the valid rows and the error entries together
account for the whole batch), and an unexpected per-row failure becomes a
`RowValidationError` for that row with the generic diagnostic while the
loop continues over the remaining rows. -/
theorem validateLoop_no_exception_escapes (f : Nat → RowDict → Except RowExc Unit)
    (rows : List RowDict) :
    (validateLoop f 0 rows).1.length + (validateLoop f 0 rows).2.length = rows.length
    ∧ ∀ j (h : j < rows.length) (m : String),
        f j (rows.get ⟨j, h⟩) = .error (.runtime m) →
          RowErr.mk j [genericFieldErr m] ∈ (validateLoop f 0 rows).2 := by
  have h := validateLoop_accounting f 0 rows
  simpa using h

/-- A two-row batch for exercising the row loop. -/
def exampleRows : List RowDict := [[("a", Value.vNum 1)], [("a", Value.vNum 2)]]

/-- A row checker whose second row fails with an unexpected exception. -/
def exampleChecker : Nat → RowDict → Except RowExc Unit :=
  fun i _ => if i = 1 then .error (.runtime "boom") else .ok ()

/-- C6 witness: the unexpected failure on row 1 is returned as a generic
row-error entry and the loop still accounts for both rows. -/
theorem validateLoop_no_exception_escapes_witness :
    (validateLoop exampleChecker 0 exampleRows).1.length
        + (validateLoop exampleChecker 0 exampleRows).2.length = 2
    ∧ RowErr.mk 1 [genericFieldErr "boom"] ∈ (validateLoop exampleChecker 0 exampleRows).2 :=
  ⟨(validateLoop_no_exception_escapes exampleChecker exampleRows).1,
   (validateLoop_no_exception_escapes exampleChecker exampleRows).2 1 (by decide) "boom" rfl⟩

/-- C4: for a 5-row batch whose row at index 2 holds an unparseable value
in a Float-typed column, the casted batch still has 5 rows with that
row's cell null in that column, and exactly one row validation error is
produced, carrying row index 2. -/
theorem five_row_float_single_error (a b c d e : Value) (qa qb qd qe : ℚ)
    (ha : pdToNumeric a = some qa) (hb : pdToNumeric b = some qb)
    (hc : pdToNumeric c = none)
    (hd : pdToNumeric d = some qd) (he : pdToNumeric e = some qe) :
    auto_cast_and_validate [("x", [a, b, c, d, e])] [("x", PyType.pfloat)]
      = ([("x", [.vNum qa, .vNum qb, .vNull, .vNum qd, .vNum qe])],
         [],
         [⟨2, [⟨"x", fieldTypeMsg PyType.pfloat⟩]⟩]) := by
  simp [auto_cast_and_validate, autoCastBatch, autoCastErrors, castColumn,
    castFloatCell, ha, hb, hc, hd, he, pydanticFields, numRows, rowDict,
    validateLoop, checkRowExc, validateField, List.lookup, List.range_succ]

/-- C4 witness: a concrete 5-row single-column batch with the unparseable
string at index 2. -/
theorem five_row_float_single_error_witness :
    auto_cast_and_validate
        [("x", [Value.vStr "1", Value.vNum 2, Value.vStr "abc",
                Value.vStr "35", Value.vBool true])]
        [("x", PyType.pfloat)]
      = ([("x", [Value.vNum 1, Value.vNum 2, Value.vNull,
                 Value.vNum 35, Value.vNum 1])],
         [],
         [⟨2, [⟨"x", fieldTypeMsg PyType.pfloat⟩]⟩]) :=
  five_row_float_single_error _ _ _ _ _ 1 2 35 1
    rfl rfl (by decide) rfl rfl

/-- C2 counterexample: an Integer-typed column holding an unparseable
string is returned unchanged by `auto_cast_and_validate` — the cell does
not become null, because `validate.py` has no cast branch for `int`. -/
theorem int_column_not_nulled_counterexample :
    pdToNumeric (Value.vStr "abc") = none
    ∧ (auto_cast_and_validate [("n", [Value.vStr "abc"])] [("n", PyType.pint)]).1
        = [("n", [Value.vStr "abc"])] := by
  decide

/-- C2 (amended): `auto_cast_and_validate` leaves every Integer- and
Boolean-typed column exactly as it was in the input batch — the cast
dispatch has branches only for Float (parse-or-null), Text (stringify)
and Timestamp (parse-or-null). -/
theorem int_bool_columns_unchanged (df : Batch) (tm : TypeMap)
    (c : String) (vals : List Value)
    (hmem : (c, vals) ∈ df)
    (hty : tm.lookup c = some PyType.pint ∨ tm.lookup c = some PyType.pbool) :
    (c, vals) ∈ (auto_cast_and_validate df tm).1 := by
  have h1 : (auto_cast_and_validate df tm).1 = autoCastBatch df tm := by
    by_cases h : (pydanticFields (autoCastBatch df tm) tm).isEmpty <;>
      simp [auto_cast_and_validate, h]
  rw [h1, autoCastBatch]
  have h2 : (fun col => match tm.lookup col.1 with
      | some ty => (col.1, castColumn ty col.2)
      | none => col) ((c, vals) : String × List Value) = (c, vals) := by
    rcases hty with h | h <;> simp [h, castColumn]
  exact h2 ▸ List.mem_map_of_mem _ hmem

/-- C2 amended-claim witness: a Boolean-typed column passes through. -/
theorem int_bool_columns_unchanged_witness :
    ("n", [Value.vStr "x"])
      ∈ (auto_cast_and_validate [("n", [Value.vStr "x"])] [("n", PyType.pbool)]).1 :=
  int_bool_columns_unchanged _ _ _ _ (by decide) (Or.inr (by decide))

/-- A wall-clock reading as `datetime.datetime.now()` yields it, split
into the fields that `strftime` renders. -/
structure DT where
  year : Nat
  month : Nat
  day : Nat
  hour : Nat
  minute : Nat
  second : Nat
  micro : Nat
  deriving DecidableEq, Repr

/-- Field ranges of a real `datetime` value (the year range is what `%Y`
renders as exactly four digits). -/
def DT.Valid (d : DT) : Prop :=
  1000 ≤ d.year ∧ d.year ≤ 9999 ∧ 1 ≤ d.month ∧ d.month ≤ 12
    ∧ 1 ≤ d.day ∧ d.day ≤ 31 ∧ d.hour ≤ 23 ∧ d.minute ≤ 59
    ∧ d.second ≤ 59 ∧ d.micro ≤ 999999

instance (d : DT) : Decidable d.Valid := by
  unfold DT.Valid; infer_instance

/-- Chronological order on clock readings: lexicographic on the calendar
fields, down to the microsecond. -/
def DT.Before (a b : DT) : Prop :=
  a.year < b.year
  ∨ (a.year = b.year ∧ (a.month < b.month
  ∨ (a.month = b.month ∧ (a.day < b.day
  ∨ (a.day = b.day ∧ (a.hour < b.hour
  ∨ (a.hour = b.hour ∧ (a.minute < b.minute
  ∨ (a.minute = b.minute ∧ (a.second < b.second
  ∨ (a.second = b.second ∧ a.micro < b.micro)))))))))))

instance (a b : DT) : Decidable (DT.Before a b) := by
  unfold DT.Before; infer_instance

def digitChar : Nat → Char
  | 0 => '0' | 1 => '1' | 2 => '2' | 3 => '3' | 4 => '4'
  | 5 => '5' | 6 => '6' | 7 => '7' | 8 => '8' | _ => '9'

/-- `n` rendered as exactly `w` zero-padded decimal digits — the
fixed-width fields of the `strftime` format. -/
def padNum : Nat → Nat → List Char
  | 0, _ => []
  | w + 1, n => padNum w (n / 10) ++ [digitChar (n % 10)]

/-- The numeric reading of a decimal digit string. -/
def digitsVal (cs : List Char) : Nat :=
  cs.foldl (fun a ch => a * 10 + digitVal ch) 0

/-- `now.strftime("%Y%m%d%H%M%S%f")` (`load.py` lines 123 and 133): the
clock reading rendered as 4+2+2+2+2+2+6 zero-padded decimal digits —
year down to seconds and microseconds. -/
def strftimeTs (d : DT) : List Char :=
  padNum 4 d.year ++ padNum 2 d.month ++ padNum 2 d.day ++ padNum 2 d.hour
    ++ padNum 2 d.minute ++ padNum 2 d.second ++ padNum 6 d.micro

/-- The versioned table name `f"{base_table_name}_{timestamp}"` built at
`load.py` lines 124 and 134. -/
def versionedTableName (base : String) (d : DT) : String :=
  base ++ "_" ++ String.mk (strftimeTs d)

/-- The mixed-radix value the 20 rendered digits stand for. -/
def tsVal (d : DT) : Nat :=
  d.year * 10000000000000000 + d.month * 100000000000000
    + d.day * 1000000000000 + d.hour * 10000000000
    + d.minute * 100000000 + d.second * 1000000 + d.micro

theorem padNum_length (w n : Nat) : (padNum w n).length = w := by
  induction w generalizing n with
  | zero => rfl
  | succ w ih => simp [padNum, ih]

theorem digitChar_isDigit (n : Nat) : (digitChar n).isDigit = true := by
  unfold digitChar
  split <;> decide

theorem padNum_digits (w n : Nat) : ∀ ch ∈ padNum w n, ch.isDigit = true := by
  induction w generalizing n with
  | zero => intro ch h; simp [padNum] at h
  | succ w ih =>
    intro ch h
    simp only [padNum, List.mem_append, List.mem_singleton] at h
    rcases h with h | h
    · exact ih _ ch h
    · subst h; exact digitChar_isDigit _

theorem digitsVal_foldl (a : Nat) (cs : List Char) :
    cs.foldl (fun x ch => x * 10 + digitVal ch) a = a * 10 ^ cs.length + digitsVal cs := by
  induction cs generalizing a with
  | nil => simp [digitsVal]
  | cons ch cs ih =>
    simp only [digitsVal, List.foldl_cons, List.length_cons]
    rw [ih (a * 10 + digitVal ch), ih (0 * 10 + digitVal ch)]
    ring

theorem digitsVal_append (xs ys : List Char) :
    digitsVal (xs ++ ys) = digitsVal xs * 10 ^ ys.length + digitsVal ys := by
  unfold digitsVal
  rw [List.foldl_append]
  exact digitsVal_foldl _ ys

theorem digitVal_digitChar (n : Nat) (h : n < 10) : digitVal (digitChar n) = n := by
  interval_cases n <;> decide

theorem digitsVal_padNum (w n : Nat) : digitsVal (padNum w n) = n % 10 ^ w := by
  induction w generalizing n with
  | zero => simp [padNum, digitsVal, Nat.mod_one]
  | succ w ih =>
    rw [padNum, digitsVal_append, ih]
    have h1 : digitsVal [digitChar (n % 10)] = n % 10 := by
      have hd := digitVal_digitChar (n % 10) (Nat.mod_lt _ (by norm_num))
      simp [digitsVal, hd]
    have hkey : n = (10 ^ w * 10) * (n / 10 / 10 ^ w)
        + ((n / 10 % 10 ^ w) * 10 + n % 10) := by
      have hq : 10 * (n / 10) + n % 10 = n := Nat.div_add_mod n 10
      have hq2 : 10 ^ w * (n / 10 / 10 ^ w) + n / 10 % 10 ^ w = n / 10 :=
        Nat.div_add_mod (n / 10) (10 ^ w)
      calc n = 10 * (n / 10) + n % 10 := hq.symm
        _ = 10 * (10 ^ w * (n / 10 / 10 ^ w) + n / 10 % 10 ^ w) + n % 10 := by rw [hq2]
        _ = (10 ^ w * 10) * (n / 10 / 10 ^ w) + ((n / 10 % 10 ^ w) * 10 + n % 10) := by ring
    have hlt : (n / 10 % 10 ^ w) * 10 + n % 10 < 10 ^ w * 10 := by
      have ha : n / 10 % 10 ^ w < 10 ^ w := Nat.mod_lt _ (Nat.pos_pow_of_pos w (by norm_num))
      have hb : n % 10 < 10 := Nat.mod_lt _ (by norm_num)
      omega
    rw [h1, pow_succ]
    conv_rhs => rw [hkey]
    rw [Nat.mul_add_mod, Nat.mod_eq_of_lt hlt]
    simp [List.length_singleton, pow_one]

theorem digitsVal_strftimeTs (d : DT) (h : d.Valid) :
    digitsVal (strftimeTs d) = tsVal d := by
  obtain ⟨h1, h2, h3, h4, h5, h6, h7, h8, h9, h10⟩ := h
  simp only [strftimeTs, digitsVal_append, List.length_append, padNum_length,
    digitsVal_padNum]
  have e1 : d.year % 10 ^ 4 = d.year := Nat.mod_eq_of_lt (by norm_num; omega)
  have e2 : d.month % 10 ^ 2 = d.month := Nat.mod_eq_of_lt (by norm_num; omega)
  have e3 : d.day % 10 ^ 2 = d.day := Nat.mod_eq_of_lt (by norm_num; omega)
  have e4 : d.hour % 10 ^ 2 = d.hour := Nat.mod_eq_of_lt (by norm_num; omega)
  have e5 : d.minute % 10 ^ 2 = d.minute := Nat.mod_eq_of_lt (by norm_num; omega)
  have e6 : d.second % 10 ^ 2 = d.second := Nat.mod_eq_of_lt (by norm_num; omega)
  have e7 : d.micro % 10 ^ 6 = d.micro := Nat.mod_eq_of_lt (by norm_num; omega)
  rw [e1, e2, e3, e4, e5, e6, e7, tsVal]
  norm_num
  ring

theorem tsVal_strict_mono (a b : DT) (ha : a.Valid) (hb : b.Valid)
    (h : DT.Before a b) : tsVal a < tsVal b := by
  obtain ⟨a1, a2, a3, a4, a5, a6, a7, a8, a9, a10⟩ := ha
  obtain ⟨b1, b2, b3, b4, b5, b6, b7, b8, b9, b10⟩ := hb
  unfold DT.Before at h
  unfold tsVal
  omega

/-- C9: every versioned table name produced by the loader is the base
name, an underscore, and the rendered timestamp; the timestamp is a
fixed-width string of 20 decimal digits (4-digit year down to the 2
second digits and 6 sub-second digits), and its numeric reading is
strictly monotone in the clock reading, so successive load calls in one
process — whose clock readings increase — get increasing timestamps. -/
theorem versionedTableName_format_monotone (base : String) (d1 d2 : DT)
    (h1 : d1.Valid) (h2 : d2.Valid) :
    versionedTableName base d1 = base ++ "_" ++ String.mk (strftimeTs d1)
    ∧ (strftimeTs d1).length = 20
    ∧ (∀ ch ∈ strftimeTs d1, ch.isDigit = true)
    ∧ (DT.Before d1 d2 → digitsVal (strftimeTs d1) < digitsVal (strftimeTs d2)) := by
  refine ⟨rfl, ?_, ?_, ?_⟩
  · simp [strftimeTs, List.length_append, padNum_length]
  · intro ch hch
    simp only [strftimeTs, List.mem_append] at hch
    rcases hch with ((((((h | h) | h) | h) | h) | h) | h) <;>
      exact padNum_digits _ _ ch h
  · intro hbefore
    rw [digitsVal_strftimeTs d1 h1, digitsVal_strftimeTs d2 h2]
    exact tsVal_strict_mono d1 d2 h1 h2 hbefore

/-- C9 witness: two concrete clock readings one second apart. -/
theorem versionedTableName_format_monotone_witness :
    (strftimeTs ⟨2026, 10, 12, 9, 30, 0, 123456⟩).length = 20
    ∧ digitsVal (strftimeTs ⟨2026, 10, 12, 9, 30, 0, 123456⟩)
        < digitsVal (strftimeTs ⟨2026, 10, 12, 9, 30, 1, 0⟩) :=
  ⟨(versionedTableName_format_monotone "clean_data"
      ⟨2026, 10, 12, 9, 30, 0, 123456⟩ ⟨2026, 10, 12, 9, 30, 1, 0⟩
      (by decide) (by decide)).2.1,
   (versionedTableName_format_monotone "clean_data"
      ⟨2026, 10, 12, 9, 30, 0, 123456⟩ ⟨2026, 10, 12, 9, 30, 1, 0⟩
      (by decide) (by decide)).2.2.2 (by decide)⟩

/-- A stored table: its catalog schema and its rows. -/
structure Table where
  schema : SchemaMap
  rows : List (List Value)
  deriving DecidableEq, Repr

/-- The relational store: its tables in creation order, plus a flag
modelling whether the catalog read inside `get_db_table_schema_map`
raises `SQLAlchemyError` (connectivity or permission failure). -/
structure Store where
  tables : List (String × Table)
  fetchRaises : Bool
  deriving DecidableEq, Repr

/-- The externally visible outcome of one load call. -/
inductive Outcome where
  | NoOp
  | Created (name : String)
  | Appended (name : String)
  deriving DecidableEq, Repr

/-- The store interactions a load call performs, in order. -/
inductive StoreOp where
  | probeTable (name : String)
  | fetchSchema (name : String)
  | createTable (name : String)
  | appendRows (name : String)
  deriving DecidableEq, Repr

/-- `PYTHON_TO_SQLALCHEMY_TYPE_MAP` (`load.py` lines 9-15). -/
def pythonToSqlalchemy : PyType → SqlClass
  | .pfloat => .Float
  | .pstr => .String
  | .ptimestamp => .DateTime
  | .pint => .Integer
  | .pbool => .Boolean

/-- `get_sqlalchemy_schema_map` (`load.py` lines 17-32): one entry per
frame column in frame order; a column missing from the type map defaults
to `String`. -/
def get_sqlalchemy_schema_map (tm : TypeMap) (dfColumns : List String) : SchemaMap :=
  dfColumns.map fun c =>
    match tm.lookup c with
    | some ty => (c, pythonToSqlalchemy ty)
    | none => (c, SqlClass.String)

/-- `get_db_table_schema_map` (`load.py` lines 34-42): raises when the
catalog read fails; otherwise the table's schema, or the empty map when
the table is absent. -/
def get_db_table_schema_map (st : Store) (name : String) : Except String SchemaMap :=
  if st.fetchRaises then .error "SQLAlchemyError"
  else
    match st.tables.lookup name with
    | some tbl => .ok tbl.schema
    | none => .ok []

/-- The rows of the frame, row-major, as `to_sql` writes them. -/
def dfRows (df : Batch) : List (List Value) :=
  (List.range (numRows df)).map fun i => df.map fun col => col.2.getD i .vNull

/-- `df.to_sql(name, engine, if_exists="fail", ...)`: create the table
with its rows, raising when a table of that name already exists. -/
def toSqlCreate (st : Store) (name : String) (schema : SchemaMap)
    (rows : List (List Value)) : Except String Store :=
  if (st.tables.lookup name).isSome then .error "ValueError: table exists"
  else .ok { st with tables := st.tables ++ [(name, ⟨schema, rows⟩)] }

/-- `df.to_sql(name, engine, if_exists="append", ...)`. -/
def toSqlAppend (st : Store) (name : String) (rows : List (List Value)) : Store :=
  { st with tables := st.tables.map fun p =>
      if p.1 = name then (p.1, ⟨p.2.schema, p.2.rows ++ rows⟩) else p }

/-- `load_to_postgres` (`load.py` lines 93-152), with the wall clock an
explicit argument: an empty frame no-ops; an absent base table is
created; a present base table has its schema fetched — a raising fetch
propagates (the `except` arms log and re-raise), an empty fetched schema
or an incompatible one leads to a timestamp-suffixed versioned table,
and a compatible one to an append.  The result carries the outcome, the
new store state and the trace of store interactions. -/
def load_to_postgres (st : Store) (df : Batch) (tm : TypeMap) (base : String)
    (now : DT) : Except String (Outcome × Store × List StoreOp) :=
  if numRows df = 0 ∨ df = [] then .ok (.NoOp, st, [])
  else
    let cur := get_sqlalchemy_schema_map tm (df.map Prod.fst)
    if (st.tables.lookup base).isSome then
      match get_db_table_schema_map st base with
      | .error e => .error e
      | .ok dbm =>
        if dbm.isEmpty then
          match toSqlCreate st (versionedTableName base now) cur (dfRows df) with
          | .error e => .error e
          | .ok st2 =>
            .ok (.Created (versionedTableName base now), st2,
              [.probeTable base, .fetchSchema base,
               .createTable (versionedTableName base now)])
        else if are_schemas_compatible dbm cur then
          .ok (.Appended base, toSqlAppend st base (dfRows df),
            [.probeTable base, .fetchSchema base, .appendRows base])
        else
          match toSqlCreate st (versionedTableName base now) cur (dfRows df) with
          | .error e => .error e
          | .ok st2 =>
            .ok (.Created (versionedTableName base now), st2,
              [.probeTable base, .fetchSchema base,
               .createTable (versionedTableName base now)])
    else
      match toSqlCreate st base cur (dfRows df) with
      | .error e => .error e
      | .ok st2 => .ok (.Created base, st2, [.probeTable base, .createTable base])

/-- C8: a load call on a batch with zero rows or zero columns terminates
immediately with the NoOp outcome, the store state entirely unchanged
and the interaction trace empty — no catalog probe, no schema fetch, no
table creation, no row write. -/
theorem load_empty_batch_noop (st : Store) (df : Batch) (tm : TypeMap)
    (base : String) (now : DT) (h : numRows df = 0 ∨ df = []) :
    load_to_postgres st df tm base now = .ok (.NoOp, st, []) := by
  unfold load_to_postgres
  rw [if_pos h]

/-- C8 witness: a batch with a column but no rows, against a nonempty
store. -/
theorem load_empty_batch_noop_witness :
    load_to_postgres ⟨[("clean_data", ⟨[("a", SqlClass.Integer)], []⟩)], false⟩
        [("a", [])] [("a", PyType.pint)] "clean_data" ⟨2026, 1, 1, 0, 0, 0, 0⟩
      = .ok (.NoOp, ⟨[("clean_data", ⟨[("a", SqlClass.Integer)], []⟩)], false⟩, []) :=
  load_empty_batch_noop _ _ _ _ _ (Or.inl rfl)

/-- The store of the C3 counterexample: the base table exists but the
catalog read raises. -/
def fetchFailStore : Store :=
  { tables := [("clean_data", ⟨[("a", SqlClass.INTEGER)], [[Value.vNum 1]]⟩)],
    fetchRaises := true }

/-- C3 counterexample: with the base table present and the schema fetch
raising, `load_to_postgres` propagates the error to the caller instead
of degrading to a versioned-table creation. -/
theorem load_fetch_failure_propagates_counterexample :
    load_to_postgres fetchFailStore [("a", [Value.vNum 2])] [("a", PyType.pint)]
        "clean_data" ⟨2026, 1, 1, 0, 0, 0, 0⟩
      = .error "SQLAlchemyError" := by
  rfl

/-- C3 (amended): when the base table exists and the schema fetch
succeeds but yields no columns, the loader does not abort: it degrades
to creating a new timestamp-suffixed versioned table holding the batch,
leaving the other tables untouched.  (A fetch that raises is instead
propagated to the caller.) -/
theorem load_empty_fetched_schema_degrades (st : Store) (df : Batch)
    (tm : TypeMap) (base : String) (now : DT) (tbl : Table)
    (hfetch : st.fetchRaises = false)
    (htbl : st.tables.lookup base = some tbl)
    (hschema : tbl.schema = [])
    (hrows : numRows df ≠ 0) (hcols : df ≠ [])
    (hfree : st.tables.lookup (versionedTableName base now) = none) :
    load_to_postgres st df tm base now
      = .ok (.Created (versionedTableName base now),
             { st with tables := st.tables
                 ++ [(versionedTableName base now,
                      ⟨get_sqlalchemy_schema_map tm (df.map Prod.fst), dfRows df⟩)] },
             [.probeTable base, .fetchSchema base,
              .createTable (versionedTableName base now)]) := by
  unfold load_to_postgres
  rw [if_neg (by tauto)]
  simp only [htbl, Option.isSome_some, if_true]
  unfold get_db_table_schema_map
  rw [hfetch]
  simp only [Bool.false_eq_true, if_false, htbl, hschema, List.isEmpty_nil, if_true]
  unfold toSqlCreate
  rw [hfree]
  simp [hfetch]

/-- C3 amended-claim witness: a concrete store whose base table has an
empty catalog schema. -/
theorem load_empty_fetched_schema_degrades_witness :
    load_to_postgres ⟨[("t", ⟨[], []⟩)], false⟩
        [("a", [Value.vNum 1])] [("a", PyType.pint)] "t" ⟨2026, 1, 1, 0, 0, 0, 1⟩
      = .ok (.Created (versionedTableName "t" ⟨2026, 1, 1, 0, 0, 0, 1⟩),
             ⟨[("t", ⟨[], []⟩),
               (versionedTableName "t" ⟨2026, 1, 1, 0, 0, 0, 1⟩,
                ⟨[("a", SqlClass.Integer)], [[Value.vNum 1]]⟩)], false⟩,
             [.probeTable "t", .fetchSchema "t",
              .createTable (versionedTableName "t" ⟨2026, 1, 1, 0, 0, 0, 1⟩)]) :=
  load_empty_fetched_schema_degrades ⟨[("t", ⟨[], []⟩)], false⟩
    [("a", [Value.vNum 1])] [("a", PyType.pint)] "t" ⟨2026, 1, 1, 0, 0, 0, 1⟩
    ⟨[], []⟩ rfl rfl rfl (by decide) (by decide) (by decide)

end ETL
